import Mathlib

/-
Verification of the BagsAiTradingBot trading scripts.

The definitions below are shallow embeddings of the TypeScript sources:
  - scripts/trade-checklist.ts        (pre-trade checklist, version 1)
  - trade-checklist-v2 (src/unnamed/part_007, second document)
  - scripts/liquidity-check.ts        (liquidity monitor)
  - scripts/sell-token.ts             (Jupiter sell pipeline)
  - execute-sell (src/unnamed/part_006, bags.fm sell pipeline)
  - bags-scanner (src/unnamed/part_001, analyzeToken)

External effects (HTTP responses, wall-clock readings) are passed in as
explicit parameters; numbers are rationals; nullable JSON fields are Option.
-/

namespace BagsBot

/-- One transaction-count window from the DexScreener pair payload
(buys and sells counters). -/
structure TxnWindow where
  buys : Nat
  sells : Nat
deriving DecidableEq

/-- Transaction counts by window, as collected by getTokenData in
trade-checklist-v2 (m5 / h1 / h6 / h24). -/
structure TxnsByWindow where
  m5 : TxnWindow
  h1 : TxnWindow
  h6 : TxnWindow
  h24 : TxnWindow
deriving DecidableEq

/-- Price-change percentages by window. -/
structure PriceChangeByWindow where
  m5 : ℚ
  h1 : ℚ
  h6 : ℚ
  h24 : ℚ
deriving DecidableEq

/-- Volumes by window. -/
structure VolumeByWindow where
  m5 : ℚ
  h1 : ℚ
  h6 : ℚ
  h24 : ℚ
deriving DecidableEq

/-- The TokenData record built by getTokenData from a DexScreener pair.
The liquidity field is `pair.liquidity` taken verbatim, so it may be
structurally absent (None) for bonding-curve venues. -/
structure TokenData where
  symbol : String
  name : String
  priceChange : PriceChangeByWindow
  volume : VolumeByWindow
  liquidity : Option ℚ
  mcap : ℚ
  pairCreatedAt : ℚ
  dexId : String
  txns : TxnsByWindow
deriving DecidableEq

/-- One creator entry returned by the bags.fm creators endpoint. -/
structure Creator where
  twitterUsername : Option String
  twitterPfpUrl : Option String
  twitterDisplayName : Option String
  githubUsername : Option String
  royaltyBps : ℚ
  walletAddress : String
deriving DecidableEq

/-- Result of verifyDev in trade-checklist-v2. -/
structure DevVerification where
  verified : Bool
  creators : List Creator
  lifetimeFees : ℚ
  message : String
deriving DecidableEq

/-- A named check of trade-checklist-v2: boolean pass status, display
message and an explicit critical flag. -/
structure CheckV2 where
  name : String
  status : Bool
  message : String
  critical : Bool
deriving DecidableEq

/-- Final checklist outcome: BLOCK when critical checks fail, WARN when
only non-critical checks fail, ALLOW otherwise. -/
inductive Verdict where
  | BLOCK
  | WARN
  | ALLOW
deriving DecidableEq

/-- Substring test, modelling the JavaScript String.includes method. -/
def strIncludes (s pat : String) : Bool :=
  (s.splitOn pat).length != 1

/-- isBags of both checklists:
token.dexId === "bags" or mint.toLowerCase().endsWith("bags"). -/
def isBagsToken (mint : String) (t : TokenData) : Bool :=
  t.dexId == "bags" || (mint.toLower.endsWith "bags")

/-- The h24 buy/sell ratio of trade-checklist-v2 (check 4):
buys divided by sells when sells is positive, else the raw buy count. -/
def h24RatioVal (t : TokenData) : ℚ :=
  if t.txns.h24.sells > 0 then (t.txns.h24.buys : ℚ) / (t.txns.h24.sells : ℚ)
  else (t.txns.h24.buys : ℚ)

/-- The h1 buy/sell ratio of trade-checklist-v2 (check 4). -/
def h1RatioVal (t : TokenData) : ℚ :=
  if t.txns.h1.sells > 0 then (t.txns.h1.buys : ℚ) / (t.txns.h1.sells : ℚ)
  else (t.txns.h1.buys : ℚ)

/-- The m5 buy/sell ratio computed inside isActiveDump. -/
def m5RatioVal (txns : TxnsByWindow) : ℚ :=
  if txns.m5.sells > 0 then (txns.m5.buys : ℚ) / (txns.m5.sells : ℚ)
  else (txns.m5.buys : ℚ)

/-- The h24 buy/sell ratio computed inside analyzeToken of the
bags-scanner: sells24 > 0 ? buys24 / sells24 : buys24. -/
def scannerBuyRatioVal (buys24 sells24 : Nat) : ℚ :=
  if sells24 > 0 then (buys24 : ℚ) / (sells24 : ℚ) else (buys24 : ℚ)

/-- Result of isActiveDump of trade-checklist-v2. -/
structure DumpCheck where
  dumping : Bool
  message : String
deriving DecidableEq

/-- isActiveDump of trade-checklist-v2: an active dump needs the m5 ratio
depressed AND the m5 price falling, with two severity tiers. -/
def isActiveDump (txns : TxnsByWindow) (priceChange : PriceChangeByWindow) : DumpCheck :=
  let r := m5RatioVal txns
  let m5Change := priceChange.m5
  if r < 1/2 ∧ m5Change < -5 then
    { dumping := true
      message := "❌ ACTIVE DUMP: m5 ratio " ++ toString r ++ ":1, price " ++ toString m5Change ++ "%" }
  else if r < 4/5 ∧ m5Change < -10 then
    { dumping := true
      message := "⚠️  Sell pressure: m5 ratio " ++ toString r ++ ":1, price " ++ toString m5Change ++ "%" }
  else
    { dumping := false
      message := "✅ m5 ratio: " ++ toString r ++ ":1, price " ++ toString m5Change ++ "%" }

/-- Check 4 of trade-checklist-v2: the buy/sell ratio trap check. The
critical flag is ratioTrap, which needs BOTH an extreme h24 skew (above
10:1) AND an unverified dev. -/
def buySellRatioCheckV2 (t : TokenData) (devInfo : DevVerification) : CheckV2 :=
  let h24r := h24RatioVal t
  let h1r := h1RatioVal t
  let ratioTrap := decide (h24r > 10) && !devInfo.verified
  let ratioBearish := decide (h1r < 1/2)
  { name := "Buy/Sell Ratio"
    status := !ratioTrap && !ratioBearish
    message :=
      if ratioTrap then
        "❌ LESSON #15: " ++ toString h24r ++ ":1 ratio WITHOUT verified dev = PUMP TRAP!"
      else if ratioBearish then
        "⚠️  h1 ratio " ++ toString h1r ++ ":1 — more sellers than buyers"
      else
        "✅ h24: " ++ toString h24r ++ ":1 | h1: " ++ toString h1r ++ ":1"
    critical := ratioTrap }

/-- Check 3 of trade-checklist-v2: the h1 momentum / chase guard. The
check fails, and is critical, exactly when the h1 change exceeds 100. -/
def h1PumpCheckV2 (t : TokenData) : CheckV2 :=
  let h1Pump := decide (t.priceChange.h1 > 100)
  { name := "H1 Pump Check"
    status := !h1Pump
    message :=
      if h1Pump then
        "❌ LESSON #14: +" ++ toString t.priceChange.h1 ++ "% h1 — DON\x27T CHASE PUMPS!"
      else if t.priceChange.h1 > 50 then
        "⚠️  +" ++ toString t.priceChange.h1 ++ "% h1 — significant move, timing risky"
      else
        "✅ h1 change: " ++ toString t.priceChange.h1 ++ "% (reasonable entry)"
    critical := h1Pump }

/-- Vol/MCap ratio used by checks 6 and 7 of both checklists. -/
def volMcapRatioVal (t : TokenData) : ℚ :=
  if t.mcap > 0 then t.volume.h24 / t.mcap else 0

/-- The ordered check list built by runChecklist of trade-checklist-v2
for a fetched token, a dev-verification result and an entry amount. -/
def buildChecksV2 (mint : String) (t : TokenData) (devInfo : DevVerification)
    (entryAmount : ℚ) : List CheckV2 :=
  let isBags := isBagsToken mint t
  let dumpCheck := isActiveDump t.txns t.priceChange
  let volumeOk := decide (t.volume.h24 ≥ 5000)
  let volMcapR := volMcapRatioVal t
  let sizeOk := decide (entryAmount ≥ 1/5) && decide (entryAmount ≤ 1)
  let h24Pump := decide (t.priceChange.h24 > 300)
  [ { name := "BAGS Ecosystem"
      status := isBags
      message :=
        if isBags then "✅ BAGS token (dexId: " ++ t.dexId ++ ")"
        else "❌ NOT a BAGS token — BagBot ONLY trades BAGS ecosystem!"
      critical := true }
  , { name := "Dev Verification"
      status := devInfo.verified
      message := devInfo.message
      critical := true }
  , h1PumpCheckV2 t
  , buySellRatioCheckV2 t devInfo
  , { name := "M5 Momentum"
      status := !dumpCheck.dumping
      message := dumpCheck.message
      critical := dumpCheck.dumping && strIncludes dumpCheck.message "❌" }
  , { name := "Volume"
      status := volumeOk
      message :=
        if volumeOk then "✅ 24h Volume OK" else "⚠️  24h Volume (low activity)"
      critical := false }
  , { name := "Vol/MCap"
      status := decide (volMcapR > 1/2)
      message :=
        if volMcapR > 2 then "✅ Vol/MCap: " ++ toString volMcapR ++ "x (highly active)"
        else if volMcapR > 1/2 then "✅ Vol/MCap: " ++ toString volMcapR ++ "x (healthy)"
        else "⚠️  Vol/MCap: " ++ toString volMcapR ++ "x (low activity)"
      critical := false }
  , { name := "Position Size"
      status := sizeOk
      message :=
        if entryAmount < 1/5 then
          "❌ LESSON #23: " ++ toString entryAmount ++ " SOL too small. Use 0.2-0.3 SOL standard."
        else if entryAmount > 1 then
          "❌ Position " ++ toString entryAmount ++ " SOL exceeds max (1 SOL)"
        else "✅ Position size: " ++ toString entryAmount ++ " SOL"
      critical := !sizeOk }
  , { name := "H24 Pump Check"
      status := !h24Pump
      message :=
        if h24Pump then "⚠️  +" ++ toString t.priceChange.h24 ++ "% h24 — already moved significantly"
        else "✅ h24 change: " ++ toString t.priceChange.h24 ++ "%"
      critical := false } ]

/-- The summary loop of trade-checklist-v2: criticalFails counts failed
critical checks, warnings counts failed non-critical checks, and the
reported outcome is BLOCK / WARN / ALLOW accordingly. -/
def verdictOfV2 (checks : List CheckV2) : Verdict :=
  let criticalFails := checks.countP (fun c => !c.status && c.critical)
  let warnings := checks.countP (fun c => !c.status && !c.critical)
  if criticalFails > 0 then Verdict.BLOCK
  else if warnings > 0 then Verdict.WARN
  else Verdict.ALLOW

/-- runChecklist of trade-checklist-v2, from fetched token data, the
dev-verification result and the entry amount to the final verdict. -/
def runChecklistV2 (mint : String) (t : TokenData) (devInfo : DevVerification)
    (entryAmount : ℚ) : Verdict :=
  verdictOfV2 (buildChecksV2 mint t devInfo entryAmount)

/-- verifyDev of trade-checklist-v2. The SDK branch may throw before its
Promise.allSettled pair (module load, key file, constructor): sdkAvail is
false on that path. Inside the SDK branch each settled promise that was
rejected contributes its default ([] creators, 0 fees). On the fallback
path the direct API call either yields a creator list or throws, in which
case the catch-all returns verified = false with an API-error message. -/
def verifyDev (sdkAvail : Bool) (sdkCreators : Option (List Creator))
    (sdkFees : Option ℚ) (apiCreators : Option (List Creator)) : DevVerification :=
  if sdkAvail then
    let creators := sdkCreators.getD []
    let lifetimeFees := (sdkFees.getD 0) / 1000000000
    let verifiedCreators := creators.filter
      (fun c => c.twitterUsername.isSome || c.githubUsername.isSome)
    let verified := !verifiedCreators.isEmpty
    { verified := verified
      creators := creators
      lifetimeFees := lifetimeFees
      message :=
        if verified then "✅ DEV VERIFIED" else "❌ LESSON #15: NO VERIFIED DEV — no socials!" }
  else
    match apiCreators with
    | some creators =>
      let verifiedCreators := creators.filter
        (fun c => c.twitterUsername.isSome || c.githubUsername.isSome)
      let verified := !verifiedCreators.isEmpty
      { verified := verified
        creators := creators
        lifetimeFees := 0
        message := if verified then "✅ DEV VERIFIED" else "❌ LESSON #15: NO VERIFIED DEV" }
    | none =>
      { verified := false
        creators := []
        lifetimeFees := 0
        message := "⚠️  Could not verify dev (API error)" }

/-!  Version 1 checklist (scripts/trade-checklist.ts).

Its summary loop inspects the chosen message text: a failed check whose
message carries no warning emoji is a hard failure, and any check whose
message carries the warning emoji counts as a warning. Each message is a
string literal with interpolated numbers, so which branch was chosen
fully determines whether the marker is present; warnMark records that
bit of the selected message. -/

/-- A check of the version 1 checklist: pass status plus the
warning-marker bit of the message chosen for it (modelling
check.message.includes of the warning emoji). -/
structure CheckV1 where
  name : String
  status : Bool
  warnMark : Bool
deriving DecidableEq

/-- isTradinghours of trade-checklist.ts, with the PST wall-clock hour
passed explicitly: ok is false when hour < 9 or hour >= 22. -/
def isTradinghoursOk (hour : ℤ) : Bool :=
  if hour < 9 ∨ 22 ≤ hour then false else true

/-- Check 1 of the version 1 checklist (neither message branch carries
the warning marker). -/
def tradingHoursCheck (hour : ℤ) : CheckV1 :=
  { name := "Trading Hours", status := isTradinghoursOk hour, warnMark := false }

/-- getPoolAgeHours: zero when createdAt is falsy, otherwise the age of
the pair in hours at the given current time (both in milliseconds). -/
def getPoolAgeHours (now createdAt : ℚ) : ℚ :=
  if createdAt = 0 then 0 else (now - createdAt) / (1000 * 60 * 60)

/-- Checks 2 through 8 of the version 1 checklist, which do not read the
clock hour (pool age reads the current time, passed as now). -/
def restChecksV1 (mint : String) (now : ℚ) (t : TokenData) (entryAmount : ℚ) :
    List CheckV1 :=
  let isBags := isBagsToken mint t
  let ageHours := getPoolAgeHours now t.pairCreatedAt
  let ageOk := isBags || decide (ageHours ≥ 24)
  let volumeOk := decide (t.volume.h24 ≥ 10000)
  let r := h24RatioVal t
  let ratioOk := decide (r ≥ 1) && decide (r ≤ 10)
  let volMcapR := volMcapRatioVal t
  let impactOk := decide (volMcapR > 1/10)
  let isChasing := decide (t.priceChange.h24 > 500)
  let sizeOk := decide (entryAmount ≥ 1/5) && decide (entryAmount ≤ 1)
  [ { name := "BAGS Ecosystem", status := isBags, warnMark := false }
  , { name := "Pool Age"
      status := ageOk || decide (ageHours ≥ 6)
      warnMark := decide (¬ ageHours ≥ 24 ∧ ageHours ≥ 6) }
  , { name := "Volume", status := volumeOk, warnMark := !volumeOk }
  , { name := "Buy/Sell Ratio"
      status := ratioOk
      warnMark := decide (¬ r > 10 ∧ ¬ r ≥ 1) }
  , { name := "Liquidity Estimate", status := impactOk, warnMark := !impactOk }
  , { name := "Pump Check"
      status := !isChasing
      warnMark := decide (¬ t.priceChange.h24 > 500 ∧ t.priceChange.h24 > 200) }
  , { name := "Position Size", status := sizeOk, warnMark := false } ]

/-- The full ordered check list of the version 1 checklist. -/
def buildChecksV1 (mint : String) (hour : ℤ) (now : ℚ) (t : TokenData)
    (entryAmount : ℚ) : List CheckV1 :=
  tradingHoursCheck hour :: restChecksV1 mint now t entryAmount

/-- The summary loop of trade-checklist.ts: failCount counts failed
checks without the warning marker, warnCount counts checks with it. -/
def verdictOfV1 (checks : List CheckV1) : Verdict :=
  let failCount := checks.countP (fun c => !c.status && !c.warnMark)
  let warnCount := checks.countP (fun c => c.warnMark)
  if failCount > 0 then Verdict.BLOCK
  else if warnCount > 0 then Verdict.WARN
  else Verdict.ALLOW

/-- runChecklist of trade-checklist.ts, with the wall-clock readings
(PST hour and current epoch milliseconds) passed explicitly. -/
def runChecklistV1 (mint : String) (hour : ℤ) (now : ℚ) (t : TokenData)
    (entryAmount : ℚ) : Verdict :=
  verdictOfV1 (buildChecksV1 mint hour now t entryAmount)

/-!  Liquidity monitor (scripts/liquidity-check.ts). -/

/-- The raw DexScreener pair fields read by fetchLiquidity; each may be
absent in the JSON payload. -/
structure PairRaw where
  liquidityUsd : Option ℚ
  priceUsd : Option ℚ
  volumeH24 : Option ℚ
deriving DecidableEq

/-- The record fetchLiquidity returns for a pair. -/
structure LiqData where
  liquidity : ℚ
  priceUsd : ℚ
  volume24h : ℚ
deriving DecidableEq

/-- fetchLiquidity of liquidity-check.ts: pair.liquidity?.usd || 0 (an
absent liquidity field is replaced by zero), with the same defaulting for
price and volume; None models an empty or failed response. -/
def fetchLiquidity (resp : Option PairRaw) : Option LiqData :=
  resp.map (fun p =>
    { liquidity := p.liquidityUsd.getD 0
      priceUsd := p.priceUsd.getD 0
      volume24h := p.volumeH24.getD 0 })

/-- Classification of liquidity-check.ts. -/
inductive LiqStatusT where
  | STRANDED
  | WARNING
  | HEALTHY
  | ERROR
deriving DecidableEq

/-- getStatus of liquidity-check.ts: STRANDED below the critical
threshold 100 USD, WARNING below 500 USD, HEALTHY otherwise. -/
def getStatus (liquidity : ℚ) : LiqStatusT :=
  if liquidity < 100 then LiqStatusT.STRANDED
  else if liquidity < 500 then LiqStatusT.WARNING
  else LiqStatusT.HEALTHY

/-- A watchlist position of liquidity-check.ts (fields used by the
monitor). -/
structure PositionL where
  symbol : String
  address : String
  entryPrice : ℚ
  tokens : ℚ
  costBasis : ℚ
deriving DecidableEq

/-- One row of the monitor result. -/
structure LiquidityStatus where
  symbol : String
  liquidity : ℚ
  currentValue : ℚ
  status : LiqStatusT
  canExit : Bool
deriving DecidableEq

/-- The per-position body of checkLiquidity: on data the status comes
from getStatus of the (defaulted) liquidity value and canExit requires
liquidity above twice the position value; on a failed fetch the row is
ERROR. -/
def classifyPosition (pos : PositionL) (resp : Option PairRaw) : LiquidityStatus :=
  match fetchLiquidity resp with
  | some data =>
    let currentValue := data.priceUsd * pos.tokens
    { symbol := pos.symbol
      liquidity := data.liquidity
      currentValue := currentValue
      status := getStatus data.liquidity
      canExit := decide (data.liquidity > currentValue * 2) }
  | none =>
    { symbol := pos.symbol
      liquidity := 0
      currentValue := 0
      status := LiqStatusT.ERROR
      canExit := false }

/-!  Execution pipelines.

executeSell (the bags.fm sell pipeline) and the main flow of
scripts/sell-token.ts (the Jupiter sell pipeline) are embedded as
functions from their external responses to the ordered list of external
actions they perform plus the outcome. The broadcast action records the
skipPreflight and maxRetries options passed to the RPC send call. -/

/-- One external action of a sell pipeline run, in order. -/
inductive ExecStep where
  | getQuote
  | buildSwap
  | signTx
  | broadcast (skipPreflight : Bool) (maxRetries : Nat)
  | simulate
  | confirmTx
deriving DecidableEq

/-- Final outcome of a pipeline run. -/
inductive ExecOutcome where
  | success
  | failed (message : String)
deriving DecidableEq

/-- The quote response of the bags.fm trade API (fields used by
executeSell). -/
structure BagsQuoteR where
  outAmount : ℚ
  minOutAmount : ℚ
  priceImpactPct : ℚ
deriving DecidableEq

/-- executeSell of the bags.fm sell pipeline. quoteRes is None when the
quote call reports failure, swapRes is None when the swap build reports
failure, confirmErr is true when the confirmation returns an error. The
quote price impact is only printed, never compared against any ceiling,
and the broadcast is issued with skipPreflight true and maxRetries 3;
there is no simulation step. -/
def executeSell (quoteRes : Option BagsQuoteR) (swapRes : Option String)
    (confirmErr : Bool) : List ExecStep × ExecOutcome :=
  match quoteRes with
  | none => ([ExecStep.getQuote], ExecOutcome.failed "Quote failed")
  | some _quote =>
    match swapRes with
    | none => ([ExecStep.getQuote, ExecStep.buildSwap], ExecOutcome.failed "Swap build failed")
    | some _tx =>
      ([ExecStep.getQuote, ExecStep.buildSwap, ExecStep.signTx,
        ExecStep.broadcast true 3, ExecStep.confirmTx],
       if confirmErr then ExecOutcome.failed "Transaction failed" else ExecOutcome.success)

/-- The Jupiter quote response (fields used by sell-token.ts). -/
structure JupQuoteR where
  quoteErr : Option String
  outAmount : ℚ
  priceImpactPct : ℚ
deriving DecidableEq

/-- The main flow of scripts/sell-token.ts: abort on a quote error; abort
with an error when the price impact exceeds 5 (percent) BEFORE the swap
transaction is built; otherwise build, sign and broadcast with
skipPreflight true and maxRetries 3, then await confirmation (confirmErr
is true when that wait rejects). -/
def sellTokenMain (quote : JupQuoteR) (confirmErr : Bool) : List ExecStep × ExecOutcome :=
  if quote.quoteErr.isSome then
    ([ExecStep.getQuote], ExecOutcome.failed "Quote error")
  else if quote.priceImpactPct > 5 then
    ([ExecStep.getQuote], ExecOutcome.failed "Price impact too high (>5%). Aborting.")
  else
    ([ExecStep.getQuote, ExecStep.buildSwap, ExecStep.signTx,
      ExecStep.broadcast true 3, ExecStep.confirmTx],
     if confirmErr then ExecOutcome.failed "confirmation failed" else ExecOutcome.success)

/-- sellTokens of the Jupiter Ultra variant: quote, build, sign,
broadcast with skipPreflight true and maxRetries 3, confirm; the
confirmation error only flips the reported success flag. -/
def sellTokensUltra (confirmErr : Bool) : List ExecStep × ExecOutcome :=
  ([ExecStep.getQuote, ExecStep.buildSwap, ExecStep.signTx,
    ExecStep.broadcast true 3, ExecStep.confirmTx],
   if confirmErr then ExecOutcome.failed "Transaction failed" else ExecOutcome.success)

/-!  Helper lemmas about the verdict aggregation. -/

/-- The aggregated verdict is BLOCK exactly when some critical check
failed. -/
theorem verdictOfV2_eq_BLOCK_iff (checks : List CheckV2) :
    verdictOfV2 checks = Verdict.BLOCK ↔
      ∃ c ∈ checks, c.status = false ∧ c.critical = true := by
  unfold verdictOfV2
  by_cases h1 : 0 < checks.countP (fun c => !c.status && c.critical)
  · rw [if_pos h1]
    simp only [true_iff]
    rcases List.countP_pos_iff.mp h1 with ⟨c, hc, hpc⟩
    refine ⟨c, hc, ?_, ?_⟩ <;> revert hpc <;> cases hs : c.status <;> cases hcr : c.critical <;> simp
  · rw [if_neg h1]
    constructor
    · intro hcontra
      by_cases h2 : 0 < checks.countP (fun c => !c.status && !c.critical) <;>
        simp [h2] at hcontra
    · rintro ⟨c, hc, hs, hcr⟩
      exact absurd (List.countP_pos_iff.mpr ⟨c, hc, by simp [hs, hcr]⟩) h1

/-- A failing critical member forces the BLOCK verdict. -/
theorem verdictOfV2_BLOCK_of_mem {checks : List CheckV2} {c : CheckV2}
    (hmem : c ∈ checks) (hs : c.status = false) (hc : c.critical = true) :
    verdictOfV2 checks = Verdict.BLOCK :=
  (verdictOfV2_eq_BLOCK_iff checks).mpr ⟨c, hmem, hs, hc⟩

/-- The aggregated verdict is WARN exactly when no critical check failed
but some non-critical check did. -/
theorem verdictOfV2_eq_WARN_iff (checks : List CheckV2) :
    verdictOfV2 checks = Verdict.WARN ↔
      ((∀ c ∈ checks, c.critical = true → c.status = true) ∧
       ∃ c ∈ checks, c.status = false ∧ c.critical = false) := by
  unfold verdictOfV2
  by_cases h1 : 0 < checks.countP (fun c => !c.status && c.critical)
  · rw [if_pos h1]
    rcases List.countP_pos_iff.mp h1 with ⟨c, hc, hpc⟩
    have hs : c.status = false ∧ c.critical = true := by
      revert hpc; cases c.status <;> cases c.critical <;> simp
    constructor
    · intro hEq; exact absurd hEq (by decide)
    · rintro ⟨hnone, -⟩
      have := hnone c hc hs.2
      simp [hs.1] at this
  · rw [if_neg h1]
    have hno : ∀ c ∈ checks, c.critical = true → c.status = true := by
      intro c hc hcr
      by_contra hst
      have hst' : c.status = false := by revert hst; cases c.status <;> simp
      exact h1 (List.countP_pos_iff.mpr ⟨c, hc, by simp [hst', hcr]⟩)
    by_cases h2 : 0 < checks.countP (fun c => !c.status && !c.critical)
    · rw [if_pos h2]
      simp only [true_iff]
      refine ⟨hno, ?_⟩
      rcases List.countP_pos_iff.mp h2 with ⟨c, hc, hpc⟩
      refine ⟨c, hc, ?_, ?_⟩ <;> revert hpc <;> cases c.status <;> cases c.critical <;> simp
    · rw [if_neg h2]
      constructor
      · intro hEq; exact absurd hEq (by decide)
      · rintro ⟨-, c, hc, hs, hcr⟩
        exact absurd (List.countP_pos_iff.mpr ⟨c, hc, by simp [hs, hcr]⟩) h2

/-- The aggregated verdict is ALLOW exactly when every check passed. -/
theorem verdictOfV2_eq_ALLOW_iff (checks : List CheckV2) :
    verdictOfV2 checks = Verdict.ALLOW ↔ ∀ c ∈ checks, c.status = true := by
  unfold verdictOfV2
  by_cases h1 : 0 < checks.countP (fun c => !c.status && c.critical)
  · rw [if_pos h1]
    rcases List.countP_pos_iff.mp h1 with ⟨c, hc, hpc⟩
    have hs : c.status = false ∧ c.critical = true := by
      revert hpc; cases c.status <;> cases c.critical <;> simp
    constructor
    · intro hEq; exact absurd hEq (by decide)
    · intro hall
      have := hall c hc
      simp [hs.1] at this
  · rw [if_neg h1]
    by_cases h2 : 0 < checks.countP (fun c => !c.status && !c.critical)
    · rw [if_pos h2]
      rcases List.countP_pos_iff.mp h2 with ⟨c, hc, hpc⟩
      have hs : c.status = false ∧ c.critical = false := by
        revert hpc; cases c.status <;> cases c.critical <;> simp
      constructor
      · intro hEq; exact absurd hEq (by decide)
      · intro hall
        have := hall c hc
        simp [hs.1] at this
    · rw [if_neg h2]
      simp only [true_iff]
      intro c hc
      by_contra hst
      have hst' : c.status = false := by revert hst; cases c.status <;> simp
      cases hcr : c.critical
      · exact h2 (List.countP_pos_iff.mpr ⟨c, hc, by simp [hst', hcr]⟩)
      · exact h1 (List.countP_pos_iff.mpr ⟨c, hc, by simp [hst', hcr]⟩)

/-- Claim C2: for every set of evaluated risk checks, the final verdict
is BLOCK if and only if at least one critical check fails; otherwise it
is WARN if and only if at least one advisory (non-critical) check fails;
otherwise it is ALLOW — and exactly one of the three outcomes is
reported. -/
theorem claim_C2_verdict_aggregation (checks : List CheckV2) :
    (verdictOfV2 checks = Verdict.BLOCK ↔
      ∃ c ∈ checks, c.status = false ∧ c.critical = true) ∧
    (verdictOfV2 checks = Verdict.WARN ↔
      ((∀ c ∈ checks, c.critical = true → c.status = true) ∧
       ∃ c ∈ checks, c.status = false ∧ c.critical = false)) ∧
    (verdictOfV2 checks = Verdict.ALLOW ↔ ∀ c ∈ checks, c.status = true) ∧
    (verdictOfV2 checks = Verdict.BLOCK ∨ verdictOfV2 checks = Verdict.WARN ∨
      verdictOfV2 checks = Verdict.ALLOW) :=
  ⟨verdictOfV2_eq_BLOCK_iff checks, verdictOfV2_eq_WARN_iff checks,
   verdictOfV2_eq_ALLOW_iff checks, by
     cases h : verdictOfV2 checks
     · exact Or.inl rfl
     · exact Or.inr (Or.inl rfl)
     · exact Or.inr (Or.inr rfl)⟩

/-!  Membership of individual checks in the check list of
trade-checklist-v2. -/

/-- The dev-verification check is the second entry of the list. -/
theorem devCheck_mem_buildChecksV2 (mint : String) (t : TokenData)
    (devInfo : DevVerification) (amt : ℚ) :
    ({ name := "Dev Verification", status := devInfo.verified,
       message := devInfo.message, critical := true } : CheckV2) ∈
      buildChecksV2 mint t devInfo amt := by
  unfold buildChecksV2
  exact List.mem_cons_of_mem _ (List.mem_cons_self _ _)

/-- The h1 momentum check is the third entry of the list. -/
theorem h1PumpCheck_mem_buildChecksV2 (mint : String) (t : TokenData)
    (devInfo : DevVerification) (amt : ℚ) :
    h1PumpCheckV2 t ∈ buildChecksV2 mint t devInfo amt := by
  unfold buildChecksV2
  exact List.mem_cons_of_mem _ (List.mem_cons_of_mem _ (List.mem_cons_self _ _))

/-- The buy/sell ratio check is the fourth entry of the list. -/
theorem ratioCheck_mem_buildChecksV2 (mint : String) (t : TokenData)
    (devInfo : DevVerification) (amt : ℚ) :
    buySellRatioCheckV2 t devInfo ∈ buildChecksV2 mint t devInfo amt := by
  unfold buildChecksV2
  exact List.mem_cons_of_mem _ (List.mem_cons_of_mem _
    (List.mem_cons_of_mem _ (List.mem_cons_self _ _)))

/-!  Trace shapes of the execution pipelines. -/

/-- A run of executeSell stops after the quote, stops after the build, or
performs the full quote / build / sign / broadcast / confirm sequence. -/
theorem executeSell_trace_cases (qr : Option BagsQuoteR) (sr : Option String) (ce : Bool) :
    (executeSell qr sr ce).1 = [ExecStep.getQuote] ∨
    (executeSell qr sr ce).1 = [ExecStep.getQuote, ExecStep.buildSwap] ∨
    (executeSell qr sr ce).1 = [ExecStep.getQuote, ExecStep.buildSwap, ExecStep.signTx,
      ExecStep.broadcast true 3, ExecStep.confirmTx] := by
  cases qr
  · left; rfl
  · cases sr
    · right; left; rfl
    · right; right; rfl

/-- A run of the Jupiter sell script either aborts right after the quote
or performs the full sequence. -/
theorem sellTokenMain_trace_cases (jq : JupQuoteR) (ce : Bool) :
    (sellTokenMain jq ce).1 = [ExecStep.getQuote] ∨
    (sellTokenMain jq ce).1 = [ExecStep.getQuote, ExecStep.buildSwap, ExecStep.signTx,
      ExecStep.broadcast true 3, ExecStep.confirmTx] := by
  unfold sellTokenMain
  by_cases h1 : jq.quoteErr.isSome
  · left; simp [h1]
  · by_cases h2 : jq.priceImpactPct > 5
    · left; simp [h1, h2]
    · right; simp [h1, h2]

/-!  Concrete sample inputs used by witnesses and counterexamples. -/

/-- A healthy BAGS token whose h1 price change of 75 percent is a
moderate excess (between 50 and 100) and whose other metrics pass every
check of both checklists. -/
def tokSample : TokenData :=
  { symbol := "TOK", name := "Token"
    priceChange := { m5 := 0, h1 := 75, h6 := 10, h24 := 20 }
    volume := { m5 := 100, h1 := 1000, h6 := 10000, h24 := 50000 }
    liquidity := none
    mcap := 10000
    pairCreatedAt := 0
    dexId := "bags"
    txns := { m5 := ⟨5, 5⟩, h1 := ⟨10, 10⟩, h6 := ⟨50, 40⟩, h24 := ⟨100, 50⟩ } }

/-- The same token with an h1 price change of 150 percent (a pump). -/
def tokPump : TokenData :=
  { symbol := "TOK", name := "Token"
    priceChange := { m5 := 0, h1 := 150, h6 := 10, h24 := 20 }
    volume := { m5 := 100, h1 := 1000, h6 := 10000, h24 := 50000 }
    liquidity := none
    mcap := 10000
    pairCreatedAt := 0
    dexId := "bags"
    txns := { m5 := ⟨5, 5⟩, h1 := ⟨10, 10⟩, h6 := ⟨50, 40⟩, h24 := ⟨100, 50⟩ } }

/-- A token with an extreme h24 buy/sell skew (12 buys, 0 sells, giving
ratio 12). -/
def tokSkew : TokenData :=
  { symbol := "TOK", name := "Token"
    priceChange := { m5 := 0, h1 := 10, h6 := 10, h24 := 20 }
    volume := { m5 := 100, h1 := 1000, h6 := 10000, h24 := 50000 }
    liquidity := none
    mcap := 10000
    pairCreatedAt := 0
    dexId := "bags"
    txns := { m5 := ⟨5, 5⟩, h1 := ⟨10, 10⟩, h6 := ⟨50, 40⟩, h24 := ⟨12, 0⟩ } }

/-- A token whose transaction windows all report zero sells. -/
def tokZeroSells : TokenData :=
  { symbol := "TOK", name := "Token"
    priceChange := { m5 := 0, h1 := 10, h6 := 10, h24 := 20 }
    volume := { m5 := 100, h1 := 1000, h6 := 10000, h24 := 50000 }
    liquidity := none
    mcap := 10000
    pairCreatedAt := 0
    dexId := "bags"
    txns := { m5 := ⟨7, 0⟩, h1 := ⟨5, 0⟩, h6 := ⟨50, 0⟩, h24 := ⟨12, 0⟩ } }

/-- A verified dev result. -/
def devVerifiedC : DevVerification :=
  { verified := true, creators := [], lifetimeFees := 0, message := "ok" }

/-- An unverified dev result. -/
def devUnverifiedC : DevVerification :=
  { verified := false, creators := [], lifetimeFees := 0
    message := "❌ LESSON #15: NO VERIFIED DEV" }

/-- A bags.fm quote with a small price impact (0.3 percent). -/
def quoteSmallImpact : BagsQuoteR :=
  { outAmount := 1, minOutAmount := 1, priceImpactPct := 3/10 }

/-- A bags.fm quote with a huge price impact (10 percent). -/
def quoteHighImpact : BagsQuoteR :=
  { outAmount := 1, minOutAmount := 1, priceImpactPct := 10 }

/-- A Jupiter quote without error and with a tiny price impact. -/
def jqBenign : JupQuoteR :=
  { quoteErr := none, outAmount := 1, priceImpactPct := 1 }

/-- A Jupiter quote without error but with a 10 percent price impact. -/
def jqHighImpact : JupQuoteR :=
  { quoteErr := none, outAmount := 1, priceImpactPct := 10 }

/-- A DexScreener pair whose liquidity field is structurally absent
(bonding-curve venue) while price and volume are present. -/
def pairNullLiq : PairRaw :=
  { liquidityUsd := none, priceUsd := some 1, volumeH24 := some 50000 }

/-- An open position of 100 tokens with entry price 1. -/
def posCoyote : PositionL :=
  { symbol := "COYOTE", address := "addr", entryPrice := 1, tokens := 100, costBasis := 100 }

/-- Claim C1: the liquidity monitor is the valuation operation that
classifies open positions, and for a pair whose liquidity field is
structurally absent it coerces the absent field to zero liquidity and
classifies the position as STRANDED with canExit false, consulting no
exit quote at all. This contradicts the claim (and the repository's own
reference documentation), which demand that an absent liquidity field
never be read as zero and that exit-ability come from a live quote. The
theorem evaluates the code at the failing input. -/
theorem claim_C1_null_liquidity_marked_stranded :
    fetchLiquidity (some pairNullLiq) =
      some { liquidity := 0, priceUsd := 1, volume24h := 50000 } ∧
    (classifyPosition posCoyote (some pairNullLiq)).status = LiqStatusT.STRANDED ∧
    (classifyPosition posCoyote (some pairNullLiq)).canExit = false := by
  norm_num [fetchLiquidity, classifyPosition, getStatus, pairNullLiq, posCoyote]

/-- Claim C3, counterexample: a successful run of executeSell puts the
broadcast on the wire with skipPreflight set to true and its trace holds
no simulation step at all, so this attempt was broadcast with simulation
skipped, contradicting the claim as stated. -/
theorem claim_C3_cx_broadcast_without_simulation :
    ExecStep.broadcast true 3 ∈ (executeSell (some quoteSmallImpact) (some "tx") false).1 ∧
    ExecStep.simulate ∉ (executeSell (some quoteSmallImpact) (some "tx") false).1 ∧
    (executeSell (some quoteSmallImpact) (some "tx") false).2 = ExecOutcome.success := by
  decide

/-- Claim C3, amended: the execution pipelines perform no separate
simulation step, and every broadcast they issue carries skipPreflight
true (and maxRetries 3); no run of any of the three pipelines ever
simulates before broadcasting. -/
theorem claim_C3_broadcast_skips_preflight (qr : Option BagsQuoteR) (sr : Option String)
    (ce : Bool) (jq : JupQuoteR) (ce2 ce3 : Bool) (sp : Bool) (mr : Nat)
    (hmem : ExecStep.broadcast sp mr ∈ (executeSell qr sr ce).1 ∨
            ExecStep.broadcast sp mr ∈ (sellTokenMain jq ce2).1 ∨
            ExecStep.broadcast sp mr ∈ (sellTokensUltra ce3).1) :
    (sp = true ∧ mr = 3) ∧
    ExecStep.simulate ∉ (executeSell qr sr ce).1 ∧
    ExecStep.simulate ∉ (sellTokenMain jq ce2).1 ∧
    ExecStep.simulate ∉ (sellTokensUltra ce3).1 := by
  have hsim1 : ExecStep.simulate ∉ (executeSell qr sr ce).1 := by
    rcases executeSell_trace_cases qr sr ce with h | h | h <;> rw [h] <;> decide
  have hsim2 : ExecStep.simulate ∉ (sellTokenMain jq ce2).1 := by
    rcases sellTokenMain_trace_cases jq ce2 with h | h <;> rw [h] <;> decide
  have hsim3 : ExecStep.simulate ∉ (sellTokensUltra ce3).1 := by
    cases ce3 <;> decide
  refine ⟨?_, hsim1, hsim2, hsim3⟩
  rcases hmem with hm | hm | hm
  · rcases executeSell_trace_cases qr sr ce with h | h | h <;> rw [h] at hm <;> simp at hm
    exact ⟨hm.1, hm.2⟩
  · rcases sellTokenMain_trace_cases jq ce2 with h | h <;> rw [h] at hm <;> simp at hm
    exact ⟨hm.1, hm.2⟩
  · simp [sellTokensUltra] at hm
    exact ⟨hm.1, hm.2⟩

/-- Witness for C3 at a concrete run (the broadcast of a successful
executeSell run). -/
theorem claim_C3_witness_skipped_preflight :
    (true = true ∧ (3 : Nat) = 3) ∧
    ExecStep.simulate ∉ (executeSell (some quoteSmallImpact) (some "tx") false).1 ∧
    ExecStep.simulate ∉ (sellTokenMain jqBenign false).1 ∧
    ExecStep.simulate ∉ (sellTokensUltra false).1 :=
  claim_C3_broadcast_skips_preflight (some quoteSmallImpact) (some "tx") false
    jqBenign false false true 3 (Or.inl (by decide))

/-- Claim C4: an h24 buy/sell skew above 10:1 together with an
unverified creator makes the ratio check fail critically, forcing the
BLOCK verdict; the same skew with a verified creator leaves the ratio
check non-critical (its failure is advisory, so at most WARN); and the
ratio check is critical only when the skew and the unverified creator
occur together, never from skew alone. -/
theorem claim_C4_skew_and_unverified_critical (mint : String) (t : TokenData)
    (d : DevVerification) (amt : ℚ) (hskew : h24RatioVal t > 10) :
    (d.verified = false → runChecklistV2 mint t d amt = Verdict.BLOCK) ∧
    (d.verified = true → (buySellRatioCheckV2 t d).critical = false) ∧
    (∀ t' : TokenData, ∀ d' : DevVerification,
      (buySellRatioCheckV2 t' d').critical = true →
        h24RatioVal t' > 10 ∧ d'.verified = false) := by
  refine ⟨?_, ?_, ?_⟩
  · intro hunv
    apply verdictOfV2_BLOCK_of_mem (ratioCheck_mem_buildChecksV2 mint t d amt)
    · simp [buySellRatioCheckV2, hskew, hunv]
    · simp [buySellRatioCheckV2, hskew, hunv]
  · intro hver
    simp [buySellRatioCheckV2, hver]
  · intro t' d' hcrit
    revert hcrit
    simp only [buySellRatioCheckV2]
    cases hd : d'.verified <;> by_cases hr : h24RatioVal t' > 10 <;> simp [hr, hd]

/-- Witness for C4 at a concrete skewed token (ratio 12), once with an
unverified and once with a verified dev. -/
theorem claim_C4_witness_skew :
    runChecklistV2 "m" tokSkew devUnverifiedC (1/4) = Verdict.BLOCK ∧
    (buySellRatioCheckV2 tokSkew devVerifiedC).critical = false :=
  ⟨(claim_C4_skew_and_unverified_critical "m" tokSkew devUnverifiedC (1/4)
      (by norm_num [h24RatioVal, tokSkew])).1 rfl,
   (claim_C4_skew_and_unverified_critical "m" tokSkew devVerifiedC (1/4)
      (by norm_num [h24RatioVal, tokSkew])).2.1 rfl⟩

/-- Claim C5, counterexample: a snapshot with a moderate h1 excess of 75
percent (between 50 and 100) on an otherwise healthy verified token is
assigned the ALLOW verdict, not WARN: the moderate-excess branch of the
momentum check only changes its message, it does not fail the check. -/
theorem claim_C5_cx_moderate_excess_allowed :
    (50 : ℚ) < tokSample.priceChange.h1 ∧ tokSample.priceChange.h1 ≤ 100 ∧
    runChecklistV2 "m" tokSample devVerifiedC (1/4) = Verdict.ALLOW ∧
    Verdict.ALLOW ≠ Verdict.WARN := by
  refine ⟨by norm_num [tokSample], by norm_num [tokSample], ?_, by decide⟩
  norm_num [runChecklistV2, verdictOfV2, buildChecksV2, h1PumpCheckV2, buySellRatioCheckV2,
    isActiveDump, isBagsToken, m5RatioVal, h24RatioVal, h1RatioVal, volMcapRatioVal,
    tokSample, devVerifiedC, List.countP_cons, List.countP_nil, strIncludes]

/-- Claim C5, amended: an h1 price change above 100 percent makes the
momentum check fail critically, forcing the BLOCK verdict, and the
failing check carries the do-not-chase-pumps reason; a moderate excess
(between 50 and 100 percent) passes the check with only a cautionary
message, so it never produces a WARN (or BLOCK) verdict by itself. -/
theorem claim_C5_h1_pump_blocks (mint : String) (t : TokenData) (d : DevVerification)
    (amt : ℚ) (hpump : t.priceChange.h1 > 100) :
    runChecklistV2 mint t d amt = Verdict.BLOCK ∧
    (h1PumpCheckV2 t ∈ buildChecksV2 mint t d amt ∧
     (h1PumpCheckV2 t).status = false ∧ (h1PumpCheckV2 t).critical = true ∧
     (h1PumpCheckV2 t).message =
       "❌ LESSON #14: +" ++ toString t.priceChange.h1 ++ "% h1 — DON\x27T CHASE PUMPS!") ∧
    (∀ t' : TokenData, 50 < t'.priceChange.h1 → t'.priceChange.h1 ≤ 100 →
      (h1PumpCheckV2 t').status = true) := by
  have hst : (h1PumpCheckV2 t).status = false := by simp [h1PumpCheckV2, hpump]
  have hcr : (h1PumpCheckV2 t).critical = true := by simp [h1PumpCheckV2, hpump]
  refine ⟨verdictOfV2_BLOCK_of_mem (h1PumpCheck_mem_buildChecksV2 mint t d amt) hst hcr,
    ⟨h1PumpCheck_mem_buildChecksV2 mint t d amt, hst, hcr, ?_⟩, ?_⟩
  · simp [h1PumpCheckV2, hpump]
  · intro t' hlo hhi
    have hnot : ¬ (t'.priceChange.h1 > 100) := not_lt.mpr hhi
    simp [h1PumpCheckV2, hnot]

/-- Witness for C5 at a concrete pumped token (h1 change of 150). -/
theorem claim_C5_witness_pump :
    runChecklistV2 "m" tokPump devVerifiedC (1/4) = Verdict.BLOCK ∧
    (h1PumpCheckV2 tokPump).critical = true :=
  ⟨(claim_C5_h1_pump_blocks "m" tokPump devVerifiedC (1/4) (by norm_num [tokPump])).1,
   (claim_C5_h1_pump_blocks "m" tokPump devVerifiedC (1/4) (by norm_num [tokPump])).2.1.2.2.1⟩

/-- Claim C6, counterexample: the version 1 checklist evaluated on the
IDENTICAL snapshot and inputs returns ALLOW at 10:00 PST but BLOCK at
3:00 PST, so the verdict is not a pure function of the snapshot alone:
it reads the wall clock through the trading-hours check. -/
theorem claim_C6_cx_wall_clock_dependence :
    runChecklistV1 "m" 10 0 tokSample (1/4) = Verdict.ALLOW ∧
    runChecklistV1 "m" 3 0 tokSample (1/4) = Verdict.BLOCK ∧
    runChecklistV1 "m" 10 0 tokSample (1/4) ≠ runChecklistV1 "m" 3 0 tokSample (1/4) := by
  have hA : runChecklistV1 "m" 10 0 tokSample (1/4) = Verdict.ALLOW := by
    norm_num [runChecklistV1, verdictOfV1, buildChecksV1, restChecksV1, tradingHoursCheck,
      isTradinghoursOk, getPoolAgeHours, isBagsToken, h24RatioVal, volMcapRatioVal,
      tokSample, List.countP_cons, List.countP_nil]
  have hB : runChecklistV1 "m" 3 0 tokSample (1/4) = Verdict.BLOCK := by
    norm_num [runChecklistV1, verdictOfV1, buildChecksV1, restChecksV1, tradingHoursCheck,
      isTradinghoursOk, getPoolAgeHours, isBagsToken, h24RatioVal, volMcapRatioVal,
      tokSample, List.countP_cons, List.countP_nil]
  exact ⟨hA, hB, by rw [hA, hB]; decide⟩

/-- Claim C6, amended: the version 2 checklist reads no clock at all,
while the version 1 verdict depends on the wall-clock hour exactly
through the trading-hours window predicate: with the snapshot and the
current time fixed, evaluations at two hours on the same side of the
9-to-22 window agree. -/
theorem claim_C6_verdict_hour_window (mint : String) (h h' : ℤ) (now : ℚ)
    (t : TokenData) (amt : ℚ)
    (hw : (9 ≤ h ∧ h < 22) ↔ (9 ≤ h' ∧ h' < 22)) :
    runChecklistV1 mint h now t amt = runChecklistV1 mint h' now t amt := by
  have hcond : (h < 9 ∨ 22 ≤ h) ↔ (h' < 9 ∨ 22 ≤ h') := by omega
  have hok : isTradinghoursOk h = isTradinghoursOk h' := by
    unfold isTradinghoursOk
    by_cases hc : h < 9 ∨ 22 ≤ h
    · rw [if_pos hc, if_pos (hcond.mp hc)]
    · rw [if_neg hc, if_neg (fun hc' => hc (hcond.mpr hc'))]
  unfold runChecklistV1 buildChecksV1 tradingHoursCheck
  rw [hok]

/-- Witness for C6 at two concrete in-window hours. -/
theorem claim_C6_witness_same_window :
    runChecklistV1 "m" 10 0 tokSample (1/4) = runChecklistV1 "m" 15 0 tokSample (1/4) :=
  claim_C6_verdict_hour_window "m" 10 15 0 tokSample (1/4) (by decide)

/-- Claim C7, counterexample: executeSell applies no price-impact
ceiling at all: a quote with a 10 percent impact (above both the cited 1
percent example and the 5 percent ceiling of the Jupiter script) is
still built, signed and broadcast, and the run succeeds. -/
theorem claim_C7_cx_execute_sell_no_ceiling :
    quoteHighImpact.priceImpactPct > 1 ∧ quoteHighImpact.priceImpactPct > 5 ∧
    ExecStep.buildSwap ∈ (executeSell (some quoteHighImpact) (some "tx") false).1 ∧
    ExecStep.broadcast true 3 ∈ (executeSell (some quoteHighImpact) (some "tx") false).1 ∧
    (executeSell (some quoteHighImpact) (some "tx") false).2 = ExecOutcome.success := by
  refine ⟨by norm_num [quoteHighImpact], by norm_num [quoteHighImpact],
    by decide, by decide, by decide⟩

/-- Claim C7, amended: only the Jupiter sell script enforces a
price-impact ceiling, set at 5 percent: a quote above it aborts the run
with an error right after the quote step, before any transaction is
built, signed or broadcast; the bags.fm executeSell pipeline checks no
ceiling. -/
theorem claim_C7_jupiter_impact_abort (q : JupQuoteR) (ce : Bool)
    (hq : q.quoteErr = none) (himp : q.priceImpactPct > 5) :
    sellTokenMain q ce =
      ([ExecStep.getQuote], ExecOutcome.failed "Price impact too high (>5%). Aborting.") := by
  unfold sellTokenMain
  rw [hq]
  simp [himp]

/-- Witness for C7 at a concrete high-impact Jupiter quote. -/
theorem claim_C7_witness_abort :
    sellTokenMain jqHighImpact false =
      ([ExecStep.getQuote], ExecOutcome.failed "Price impact too high (>5%). Aborting.") :=
  claim_C7_jupiter_impact_abort jqHighImpact false rfl (by norm_num [jqHighImpact])

/-- Claim C8, counterexample: a run whose broadcast fails at
confirmation ends as a terminal failure with exactly one quote request
in its trace — the pipeline never restarts from a fresh quote, so no
expired broadcast is ever automatically retried by re-quoting. -/
theorem claim_C8_cx_failure_not_requoted :
    (executeSell (some quoteSmallImpact) (some "tx") true).2 =
      ExecOutcome.failed "Transaction failed" ∧
    (executeSell (some quoteSmallImpact) (some "tx") true).1.count ExecStep.getQuote = 1 ∧
    ¬ 2 ≤ (executeSell (some quoteSmallImpact) (some "tx") true).1.count ExecStep.getQuote := by
  decide

/-- Claim C8, amended: every pipeline run requests exactly one quote
(no failure, expired or otherwise, restarts the pipeline), and the only
retry in the system is the RPC-level rebroadcast of the already-signed
transaction, bounded by the maxRetries parameter 3 carried on every
broadcast step. -/
theorem claim_C8_single_quote_bounded_retries (qr : Option BagsQuoteR) (sr : Option String)
    (ce : Bool) (jq : JupQuoteR) (ce2 ce3 : Bool) :
    (executeSell qr sr ce).1.count ExecStep.getQuote = 1 ∧
    (sellTokenMain jq ce2).1.count ExecStep.getQuote = 1 ∧
    (sellTokensUltra ce3).1.count ExecStep.getQuote = 1 ∧
    (∀ sp mr, ExecStep.broadcast sp mr ∈ (executeSell qr sr ce).1 → mr = 3) ∧
    (∀ sp mr, ExecStep.broadcast sp mr ∈ (sellTokenMain jq ce2).1 → mr = 3) ∧
    (∀ sp mr, ExecStep.broadcast sp mr ∈ (sellTokensUltra ce3).1 → mr = 3) := by
  refine ⟨?_, ?_, ?_, ?_, ?_, ?_⟩
  · rcases executeSell_trace_cases qr sr ce with h | h | h <;> rw [h] <;> decide
  · rcases sellTokenMain_trace_cases jq ce2 with h | h <;> rw [h] <;> decide
  · cases ce3 <;> decide
  · intro sp mr hm
    rcases executeSell_trace_cases qr sr ce with h | h | h <;> rw [h] at hm <;> simp at hm
    exact hm.2
  · intro sp mr hm
    rcases sellTokenMain_trace_cases jq ce2 with h | h <;> rw [h] at hm <;> simp at hm
    exact hm.2
  · intro sp mr hm
    simp [sellTokensUltra] at hm
    exact hm.2

/-- Witness for C8 at a concrete failing run, discharging the broadcast
membership hypothesis of the bound statement. -/
theorem claim_C8_witness_counts :
    (executeSell (some quoteSmallImpact) (some "tx") true).1.count ExecStep.getQuote = 1 ∧
    (3 : Nat) = 3 :=
  ⟨(claim_C8_single_quote_bounded_retries (some quoteSmallImpact) (some "tx") true
      jqBenign false false).1,
   (claim_C8_single_quote_bounded_retries (some quoteSmallImpact) (some "tx") true
      jqBenign false false).2.2.2.1 true 3 (by decide)⟩

/-- Claim C9: every buy/sell ratio computation in the gate (h24 and h1
of the version 2 checklist, m5 of the dump detector) and in the scanner
is total: when the sell count of the window is zero the ratio is defined
to be the raw buy count, so the division branch is never taken on a zero
divisor (and in this rational embedding every value is finite). -/
theorem claim_C9_ratio_zero_sells_total (t : TokenData) (buys sells : Nat)
    (h24 : t.txns.h24.sells = 0) (h1 : t.txns.h1.sells = 0)
    (hm5 : t.txns.m5.sells = 0) (hs : sells = 0) :
    h24RatioVal t = t.txns.h24.buys ∧ h1RatioVal t = t.txns.h1.buys ∧
    m5RatioVal t.txns = t.txns.m5.buys ∧ scannerBuyRatioVal buys sells = buys := by
  refine ⟨?_, ?_, ?_, ?_⟩ <;>
    simp [h24RatioVal, h1RatioVal, m5RatioVal, scannerBuyRatioVal, h24, h1, hm5, hs]

/-- Witness for C9 at a concrete token with zero sells everywhere. -/
theorem claim_C9_witness_zero_sells :
    h24RatioVal tokZeroSells = tokZeroSells.txns.h24.buys ∧
    h1RatioVal tokZeroSells = tokZeroSells.txns.h1.buys ∧
    m5RatioVal tokZeroSells.txns = tokZeroSells.txns.m5.buys ∧
    scannerBuyRatioVal 7 0 = ((7 : ℕ) : ℚ) :=
  claim_C9_ratio_zero_sells_total tokZeroSells 7 0 rfl rfl rfl rfl

/-- Claim C10: when both the SDK path and the fallback API call fail,
verifyDev still returns a value — verified false with the API-error
message — instead of throwing, and since the dev-verification check is
critical, the version 2 checklist then reports BLOCK for every token and
amount. -/
theorem claim_C10_verify_dev_error_blocks (mint : String) (t : TokenData) (amt : ℚ)
    (cr : Option (List Creator)) (fr : Option ℚ) :
    (verifyDev false cr fr none).verified = false ∧
    (verifyDev false cr fr none).message = "⚠️  Could not verify dev (API error)" ∧
    runChecklistV2 mint t (verifyDev false cr fr none) amt = Verdict.BLOCK := by
  have h1 : (verifyDev false cr fr none).verified = false := by simp [verifyDev]
  refine ⟨h1, by simp [verifyDev], ?_⟩
  exact verdictOfV2_BLOCK_of_mem (devCheck_mem_buildChecksV2 mint t _ amt) h1 rfl

end BagsBot
